import Mathlib

set_option maxRecDepth 16384

/-!
Verification of the Talk-to-your-DB application (src/talk_with_db_app.py).

The Python program is a thin UI over three pieces of logic, which we embed
shallowly here:

* SQLite introspection (the functions explore_database and preview_table),
  modelled over an abstract database value exposing the same operations the
  code uses: catalog listing (SELECT name FROM sqlite_master WHERE
  type=table), per-table PRAGMA table_info, SELECT COUNT(*), and
  SELECT * ... LIMIT k.  A database file can be malformed (sqlite cannot
  read its catalog) and an individual table can be corrupt (reading its
  data pages raises), matching the two failure modes of the sqlite driver.
* The agent bridge get_agent_response, with the external LLM agent modelled
  as an oracle returning either a reply object or an exception message.
* The session state and chat handler of main, modelled as a state
  transition on an explicit session record.
-/

namespace TalkDB

/-- One row of PRAGMA table_info output: (cid, name, type, notnull,
dflt_value, pk).  The code reads the name at index 1; the sidebar labels all
six fields. -/
structure Column where
  cid : Nat
  name : String
  declType : String
  notnull : Nat
  dflt : Option String
  pk : Nat
deriving DecidableEq, Repr

/-- A table stored in the database file: its catalog name, its column
schema, its rows, and an optional corruption marker.  When `corrupt` is
`some e`, any statement that touches the data pages of the table (COUNT,
SELECT) raises the sqlite error `e`. -/
structure Table where
  name : String
  columns : List Column
  rows : List (List String)
  corrupt : Option String
deriving DecidableEq, Repr

/-- An uploaded file as seen through the sqlite driver: either sqlite cannot
open or read it at all (`malformed`), or it is a database holding a list of
tables. -/
inductive DBFile where
  | malformed (msg : String)
  | db (tables : List Table)
deriving DecidableEq, Repr

/-- Catalog lookup of a table by name, as sqlite resolves the identifier
interpolated into PRAGMA and SELECT statements. -/
def findTable (ts : List Table) (n : String) : Option Table :=
  ts.find? (fun t => t.name == n)

/-- Semantics of SELECT name FROM sqlite_master WHERE type=table: the
catalog names, in file order; raises if the file is not a database. -/
def listTables : DBFile → Except String (List String)
  | .malformed m => .error m
  | .db ts => .ok (ts.map Table.name)

/-- Semantics of PRAGMA table_info(n): the column rows of table n.  On a
name absent from the catalog the pragma yields no rows rather than raising. -/
def tableInfoPragma : DBFile → String → Except String (List Column)
  | .malformed m, _ => .error m
  | .db ts, n =>
    match findTable ts n with
    | some t => .ok t.columns
    | none => .ok []

/-- Semantics of SELECT COUNT(*) FROM n. -/
def countRows : DBFile → String → Except String Nat
  | .malformed m, _ => .error m
  | .db ts, n =>
    match findTable ts n with
    | some t =>
      match t.corrupt with
      | some e => .error e
      | none => .ok t.rows.length
    | none => .error ("no such table: " ++ n)

/-- Semantics of SELECT * FROM n LIMIT k (k a row count). -/
def selectLimit : DBFile → String → Nat → Except String (List (List String))
  | .malformed m, _, _ => .error m
  | .db ts, n, k =>
    match findTable ts n with
    | some t =>
      match t.corrupt with
      | some e => .error e
      | none => .ok (t.rows.take k)
    | none => .error ("no such table: " ++ n)

/-- The per-table record explore_database builds: the dict value
holding the column rows and the row count. -/
structure TableDesc where
  columns : List Column
  row_count : Nat
deriving DecidableEq, Repr

/-- Python dict assignment d[k] = v on a dict kept as an insertion-ordered
association list: an existing key keeps its position and gets the new value,
a new key is appended. -/
def dictInsert (d : List (String × TableDesc)) (k : String) (v : TableDesc) :
    List (String × TableDesc) :=
  if d.any (fun p => p.1 == k) then
    d.map (fun p => if p.1 == k then (k, v) else p)
  else d ++ [(k, v)]

/-- The loop body of explore_database: for each catalog name run
PRAGMA table_info and SELECT COUNT(*), storing the result under the name. -/
def exploreTables (db : DBFile) :
    List String → List (String × TableDesc) →
      Except String (List (String × TableDesc))
  | [], acc => .ok acc
  | n :: ns, acc =>
    match tableInfoPragma db n with
    | .error e => .error e
    | .ok cols =>
      match countRows db n with
      | .error e => .error e
      | .ok cnt => exploreTables db ns (dictInsert acc n ⟨cols, cnt⟩)

/-- Embedding of explore_database: list the catalog, then for each table
collect its columns and row count into an insertion-ordered dict. -/
def explore_database (db : DBFile) :
    Except String (List (String × TableDesc)) :=
  match listTables db with
  | .error e => .error e
  | .ok names => exploreTables db names []

/-- Embedding of preview_table with an explicit limit argument. -/
def preview_table (db : DBFile) (table_name : String) (limit : Nat) :
    Except String (List (List String)) :=
  selectLimit db table_name limit

/-- Embedding of a call to preview_table that omits the limit argument: the
Python default is 5. -/
def preview_table_default (db : DBFile) (table_name : String) :
    Except String (List (List String)) :=
  preview_table db table_name 5

/-- The pair explore_database stores for a readable table. -/
def descOf (t : Table) : String × TableDesc :=
  (t.name, ⟨t.columns, t.rows.length⟩)

theorem findTable_cons (u : Table) (us : List Table) (n : String) :
    findTable (u :: us) n = if u.name = n then some u else findTable us n := by
  by_cases h : u.name = n <;> simp [findTable, List.find?_cons, h]

theorem findTable_self (ts : List Table) (hnd : (ts.map Table.name).Nodup)
    (t : Table) (ht : t ∈ ts) : findTable ts t.name = some t := by
  induction ts with
  | nil => cases ht
  | cons u us ih =>
    simp only [List.map_cons, List.nodup_cons] at hnd
    rcases List.mem_cons.mp ht with rfl | hmem
    · simp [findTable_cons]
    · have hne : u.name ≠ t.name := by
        intro h
        exact hnd.1 (h ▸ List.mem_map_of_mem Table.name hmem)
      rw [findTable_cons, if_neg hne]
      exact ih hnd.2 hmem

theorem exploreTables_ok (ts : List Table) (rem : List Table)
    (acc : List (String × TableDesc))
    (hfind : ∀ t ∈ rem, findTable ts t.name = some t)
    (hread : ∀ t ∈ rem, t.corrupt = none)
    (hkeys : ∀ t ∈ rem, ∀ p ∈ acc, p.1 ≠ t.name)
    (hnd : (rem.map Table.name).Nodup) :
    exploreTables (.db ts) (rem.map Table.name) acc =
      .ok (acc ++ rem.map descOf) := by
  induction rem generalizing acc with
  | nil => simp [exploreTables]
  | cons t rest ih =>
    have hfind_t : findTable ts t.name = some t := hfind t (by simp)
    have hread_t : t.corrupt = none := hread t (by simp)
    simp only [List.map_cons, List.nodup_cons] at hnd
    have hins : dictInsert acc t.name ⟨t.columns, t.rows.length⟩ =
        acc ++ [(t.name, ⟨t.columns, t.rows.length⟩)] := by
      have hany : acc.any (fun p => p.1 == t.name) = false := by
        simp only [List.any_eq_false]
        intro p hp
        simpa using hkeys t (by simp) p hp
      simp [dictInsert, hany]
    have step : exploreTables (.db ts) ((t :: rest).map Table.name) acc =
        exploreTables (.db ts) (rest.map Table.name)
          (acc ++ [(t.name, ⟨t.columns, t.rows.length⟩)]) := by
      simp only [List.map_cons, exploreTables, tableInfoPragma, countRows,
        hfind_t, hread_t, hins]
    rw [step]
    have h1 : ∀ u ∈ rest, findTable ts u.name = some u :=
      fun u hu => hfind u (by simp [hu])
    have h2 : ∀ u ∈ rest, u.corrupt = none :=
      fun u hu => hread u (by simp [hu])
    have h3 : ∀ u ∈ rest,
        ∀ p ∈ acc ++ [(t.name, (⟨t.columns, t.rows.length⟩ : TableDesc))],
        p.1 ≠ u.name := by
      intro u hu p hp
      rcases List.mem_append.mp hp with hpacc | hpnew
      · exact hkeys u (by simp [hu]) p hpacc
      · have hpe : p = (t.name, (⟨t.columns, t.rows.length⟩ : TableDesc)) := by
          simpa using hpnew
        subst hpe
        intro hcontra
        have hc2 : t.name = u.name := hcontra
        exact hnd.1 (hc2 ▸ List.mem_map_of_mem Table.name hu)
    rw [ih (acc ++ [(t.name, (⟨t.columns, t.rows.length⟩ : TableDesc))]) h1 h2 h3 hnd.2]
    simp [descOf, List.append_assoc]

/-- Characterization of explore_database on a well-formed database: every
table readable and catalog names distinct (as sqlite guarantees). -/
theorem explore_database_valid (ts : List Table)
    (hread : ∀ t ∈ ts, t.corrupt = none)
    (hnd : (ts.map Table.name).Nodup) :
    explore_database (.db ts) = .ok (ts.map descOf) := by
  have h := exploreTables_ok ts ts []
    (fun t ht => findTable_self ts hnd t ht) hread (by simp) hnd
  simpa [explore_database, listTables] using h

/-- Example table from the spec: customers(id, name, country). -/
def customersTable : Table :=
  ⟨"customers",
    [⟨0, "id", "INTEGER", 1, none, 1⟩,
     ⟨1, "name", "TEXT", 0, none, 0⟩,
     ⟨2, "country", "TEXT", 0, none, 0⟩],
    [["1", "Alice", "Germany"], ["2", "Bob", "France"]], none⟩

/-- Example table from the spec: orders(id, customer_id, amount). -/
def ordersTable : Table :=
  ⟨"orders",
    [⟨0, "id", "INTEGER", 1, none, 1⟩,
     ⟨1, "customer_id", "INTEGER", 0, none, 0⟩,
     ⟨2, "amount", "REAL", 0, none, 0⟩],
    [["1", "1", "250"]], none⟩

def exampleTables : List Table := [customersTable, ordersTable]

def exampleDB : DBFile := DBFile.db exampleTables

/-- A table whose data pages cannot be read. -/
def corruptTable : Table :=
  ⟨"broken", [⟨0, "id", "INTEGER", 1, none, 1⟩], [],
    some "database disk image is malformed"⟩

/-- C2: on a valid database (every table readable, catalog names distinct,
as sqlite guarantees) explore_database returns a dict whose keys are exactly
the catalog table names and whose per-table column list has the length of
the actual column schema. -/
theorem explore_database_keys_and_columns (ts : List Table)
    (hread : ∀ t ∈ ts, t.corrupt = none)
    (hnd : (ts.map Table.name).Nodup) :
    ∃ info, explore_database (.db ts) = .ok info ∧
      info.map Prod.fst = ts.map Table.name ∧
      ∀ p ∈ info, ∃ t ∈ ts, t.name = p.1 ∧
        p.2.columns.length = t.columns.length := by
  refine ⟨ts.map descOf, explore_database_valid ts hread hnd, ?_, ?_⟩
  · simp [descOf]
  · intro p hp
    rcases List.mem_map.mp hp with ⟨t, ht, rfl⟩
    exact ⟨t, ht, rfl, rfl⟩

theorem explore_database_keys_and_columns_witness :
    ∃ info, explore_database exampleDB = .ok info ∧
      info.map Prod.fst = exampleTables.map Table.name ∧
      ∀ p ∈ info, ∃ t ∈ exampleTables, t.name = p.1 ∧
        p.2.columns.length = t.columns.length :=
  explore_database_keys_and_columns exampleTables (by decide) (by decide)

/-- C3: for every table enumerated by explore_database, the stored
row_count equals the length of the table rows, which is what
SELECT COUNT(*) (countRows) returns for that table at read time. -/
theorem explore_database_row_counts (ts : List Table)
    (hread : ∀ t ∈ ts, t.corrupt = none)
    (hnd : (ts.map Table.name).Nodup) :
    ∃ info, explore_database (.db ts) = .ok info ∧
      ∀ p ∈ info, ∃ t ∈ ts, t.name = p.1 ∧ p.2.row_count = t.rows.length ∧
        countRows (.db ts) p.1 = .ok p.2.row_count := by
  refine ⟨ts.map descOf, explore_database_valid ts hread hnd, ?_⟩
  intro p hp
  rcases List.mem_map.mp hp with ⟨t, ht, rfl⟩
  refine ⟨t, ht, rfl, rfl, ?_⟩
  simp [descOf, countRows, findTable_self ts hnd t ht, hread t ht]

theorem explore_database_row_counts_witness :
    ∃ info, explore_database exampleDB = .ok info ∧
      ∀ p ∈ info, ∃ t ∈ exampleTables, t.name = p.1 ∧
        p.2.row_count = t.rows.length ∧
        countRows (.db exampleTables) p.1 = .ok p.2.row_count :=
  explore_database_row_counts exampleTables (by decide) (by decide)

/-- C4: preview_table with limit K returns at most K rows, returns all of
the table rows when the table has fewer than K rows, and a call omitting
the limit uses the default 5. -/
theorem preview_table_limit (ts : List Table) (t : Table) (n : String)
    (k : Nat) (hfind : findTable ts n = some t) (hread : t.corrupt = none) :
    ∃ rs, preview_table (.db ts) n k = .ok rs ∧
      rs.length ≤ k ∧
      (t.rows.length < k → rs = t.rows) ∧
      preview_table_default (.db ts) n = preview_table (.db ts) n 5 := by
  refine ⟨t.rows.take k, ?_, ?_, ?_, rfl⟩
  · simp [preview_table, selectLimit, hfind, hread]
  · simp
  · intro hlt
    exact List.take_of_length_le (le_of_lt hlt)

theorem preview_table_limit_witness :
    ∃ rs, preview_table exampleDB "customers" 5 = .ok rs ∧
      rs.length ≤ 5 ∧
      (customersTable.rows.length < 5 → rs = customersTable.rows) ∧
      preview_table_default exampleDB "customers" =
        preview_table exampleDB "customers" 5 :=
  preview_table_limit exampleTables customersTable "customers" 5
    (by decide) (by decide)

/-- The two sidebar outcomes in main: either the table expanders render
from the exploration result, or the caught exception is shown inline. -/
inductive SidebarView where
  | tables (info : List (String × TableDesc))
  | errorMsg (msg : String)
deriving DecidableEq, Repr

/-- Embedding of the sidebar exploration block of main: the call to
explore_database sits in a try block; on success the table expanders render,
on any exception an inline st.error message is shown instead and the
exploration of this file stops. -/
def exploreSidebar (db : DBFile) : SidebarView :=
  match explore_database db with
  | .ok info => .tables info
  | .error e => .errorMsg ("Error exploring database: " ++ e)

theorem exploreTables_error (db : DBFile) :
    ∀ (ns : List String) (acc : List (String × TableDesc)),
      (∃ n ∈ ns, ∃ e, countRows db n = .error e) →
      ∃ e2, exploreTables db ns acc = .error e2 := by
  intro ns
  induction ns with
  | nil =>
    intro acc h
    rcases h with ⟨n, hn, _⟩
    cases hn
  | cons n ns ih =>
    intro acc h
    cases htp : tableInfoPragma db n with
    | error e => exact ⟨e, by simp [exploreTables, htp]⟩
    | ok cols =>
      cases hcr : countRows db n with
      | error e => exact ⟨e, by simp [exploreTables, htp, hcr]⟩
      | ok cnt =>
        rcases h with ⟨m, hm, e, he⟩
        rcases List.mem_cons.mp hm with rfl | hmem
        · rw [hcr] at he
          cases he
        · rcases ih (dictInsert acc n ⟨cols, cnt⟩) ⟨m, hmem, e, he⟩ with ⟨e2, he2⟩
          exact ⟨e2, by simp [exploreTables, htp, hcr, he2]⟩

/-- C9: exploration failures are surfaced, not fatal: a malformed file makes
explore_database raise, an unreadable table makes explore_database raise,
and any exception from the exploration call is caught by the sidebar
handler and rendered as an inline error message instead of a table view. -/
theorem exploration_failures_surfaced :
    (∀ m, explore_database (.malformed m) = .error m) ∧
    (∀ ts, (ts.map Table.name).Nodup →
      (∃ t ∈ ts, t.corrupt ≠ none) →
      ∃ e, explore_database (.db ts) = .error e) ∧
    (∀ db e, explore_database db = .error e →
      exploreSidebar db = .errorMsg ("Error exploring database: " ++ e)) := by
  refine ⟨fun m => rfl, ?_, ?_⟩
  · intro ts hnd h
    rcases h with ⟨t, ht, hc⟩
    obtain ⟨e, he⟩ : ∃ e, t.corrupt = some e := by
      cases hcc : t.corrupt with
      | none => exact absurd hcc hc
      | some e => exact ⟨e, rfl⟩
    have hcount : countRows (.db ts) t.name = .error e := by
      simp [countRows, findTable_self ts hnd t ht, he]
    rcases exploreTables_error (.db ts) (ts.map Table.name) []
        ⟨t.name, List.mem_map_of_mem Table.name ht, e, hcount⟩ with ⟨e2, he2⟩
    exact ⟨e2, by simp [explore_database, listTables, he2]⟩
  · intro db e h
    simp [exploreSidebar, h]

theorem exploration_failures_surfaced_witness :
    exploreSidebar (DBFile.malformed "file is not a database") =
      SidebarView.errorMsg ("Error exploring database: " ++
        "file is not a database") ∧
    ∃ e, explore_database (.db [corruptTable]) = .error e :=
  ⟨exploration_failures_surfaced.2.2 (DBFile.malformed "file is not a database")
      "file is not a database"
      (exploration_failures_surfaced.1 "file is not a database"),
    exploration_failures_surfaced.2.1 [corruptTable] (by decide)
      ⟨corruptTable, by decide, by decide⟩⟩

/-- Python string join with separator ", ", as used for the table name list
and the column name lists. -/
def joinComma : List String → String
  | [] => ""
  | [a] => a
  | a :: b :: rest => a ++ ", " ++ joinComma (b :: rest)

/-- The head of the system_message f-string, up to the interpolated list of
table names. -/
def sysHead : String :=
  "\n    You are a helpful assistant that translates natural language to SQL queries for a SQLite database.\n    \n    IMPORTANT DATABASE CONTEXT:\n    Available tables: "

/-- The part of the system_message f-string between the table name list and
the per-table detail lines. -/
def sysMid : String := "\n    \n    Table details:\n    "

/-- The literal appended after the detail loop, stating the behavioral
rules. -/
def sysRules : String :=
  "\n    \n    IMPORTANT RULES:\n    - Use the EXACT table names and column names as provided above\n    - Do not include any `limit` parameter when calling tools unless explicitly requested by the user\n    - Always return numeric values (not strings) for tool parameters\n    - First use list_tables() to confirm available tables if unsure\n    - Provide clear, well-formatted responses with explanations when appropriate\n    "

/-- One iteration of the detail loop: a line naming the table and the
comma-joined names (field at index 1) of its columns. -/
def detailLine (p : String × TableDesc) : String :=
  "\n- " ++ p.1 ++ ": columns = " ++ joinComma (p.2.columns.map Column.name)

/-- Embedding of the system_message composed in get_agent_response: header
with the joined table names, one detail line per table in dict order, then
the rules block. -/
def buildSystemMessage (info : List (String × TableDesc)) : String :=
  (info.foldl (fun acc p => acc ++ detailLine p)
    (sysHead ++ joinComma (info.map Prod.fst) ++ sysMid)) ++ sysRules

/-- The string sub occurs contiguously inside s. -/
def IsSubstr (sub s : String) : Prop :=
  ∃ pre post : String, s = pre ++ sub ++ post

theorem isSubstr_app_left {sub s : String} (a : String) (h : IsSubstr sub s) :
    IsSubstr sub (a ++ s) := by
  rcases h with ⟨pre, post, rfl⟩
  exact ⟨a ++ pre, post, by simp [String.append_assoc]⟩

theorem isSubstr_app_right {sub s : String} (b : String) (h : IsSubstr sub s) :
    IsSubstr sub (s ++ b) := by
  rcases h with ⟨pre, post, rfl⟩
  exact ⟨pre, post ++ b, by simp [String.append_assoc]⟩

theorem isSubstr_trans {a b c : String} (h1 : IsSubstr a b)
    (h2 : IsSubstr b c) : IsSubstr a c := by
  rcases h1 with ⟨p, q, rfl⟩
  rcases h2 with ⟨r, s, rfl⟩
  exact ⟨r ++ p, q ++ s, by simp [String.append_assoc]⟩

theorem isSubstr_joinComma (n : String) (l : List String) (h : n ∈ l) :
    IsSubstr n (joinComma l) := by
  induction l with
  | nil => cases h
  | cons a rest ih =>
    cases rest with
    | nil =>
      have hn : n = a := by simpa using h
      subst hn
      exact ⟨"", "", by simp [joinComma, String.append_empty, String.empty_append]⟩
    | cons b rest2 =>
      rcases List.mem_cons.mp h with rfl | hmem
      · exact ⟨"", ", " ++ joinComma (b :: rest2),
          by simp [joinComma, String.append_assoc, String.empty_append]⟩
      · have hstep : joinComma (a :: b :: rest2) =
            (a ++ ", ") ++ joinComma (b :: rest2) := rfl
        rw [hstep]
        exact isSubstr_app_left (a ++ ", ") (ih hmem)

theorem isSubstr_foldl_init (sub : String) (l : List (String × TableDesc)) :
    ∀ init : String, IsSubstr sub init →
      IsSubstr sub (l.foldl (fun acc p => acc ++ detailLine p) init) := by
  induction l with
  | nil =>
    intro init h
    simpa using h
  | cons p rest ih =>
    intro init h
    simp only [List.foldl_cons]
    exact ih (init ++ detailLine p) (isSubstr_app_right (detailLine p) h)

theorem isSubstr_foldl_mem (p : String × TableDesc)
    (l : List (String × TableDesc)) :
    ∀ init : String, p ∈ l →
      IsSubstr (detailLine p)
        (l.foldl (fun acc q => acc ++ detailLine q) init) := by
  induction l with
  | nil =>
    intro init hp
    cases hp
  | cons q rest ih =>
    intro init hp
    simp only [List.foldl_cons]
    rcases List.mem_cons.mp hp with rfl | hmem
    · exact isSubstr_foldl_init _ rest (init ++ detailLine p)
        ⟨init, "", by simp [String.append_empty]⟩
    · exact ih (init ++ detailLine q) hmem

theorem isSubstr_detailLine_name (p : String × TableDesc) :
    IsSubstr p.1 (detailLine p) :=
  ⟨"\n- ", ": columns = " ++ joinComma (p.2.columns.map Column.name),
    by simp [detailLine, String.append_assoc]⟩

theorem isSubstr_detailLine_col (p : String × TableDesc) (c : Column)
    (hc : c ∈ p.2.columns) : IsSubstr c.name (detailLine p) := by
  have h1 : IsSubstr c.name (joinComma (p.2.columns.map Column.name)) :=
    isSubstr_joinComma c.name _ (List.mem_map_of_mem Column.name hc)
  have h2 : IsSubstr (joinComma (p.2.columns.map Column.name)) (detailLine p) :=
    ⟨"\n- " ++ p.1 ++ ": columns = ", "",
      by simp [detailLine, String.append_assoc, String.append_empty]⟩
  exact isSubstr_trans h1 h2

theorem sysRules_split :
    sysRules = "\n    \n    IMPORTANT RULES:\n    - " ++
      "Use the EXACT table names and column names as provided above" ++
      "\n    - " ++
      "Do not include any `limit` parameter when calling tools unless explicitly requested by the user" ++
      "\n    - " ++
      "Always return numeric values (not strings) for tool parameters" ++
      "\n    - " ++
      "First use list_tables() to confirm available tables if unsure" ++
      "\n    - Provide clear, well-formatted responses with explanations when appropriate\n    " := by
  decide

/-- C6: the system message composed from the exploration result literally
contains every table name, every column name of every table, and the four
fixed behavioral rules the claim names. -/
theorem system_message_complete (db : DBFile)
    (info : List (String × TableDesc))
    (_h : explore_database db = .ok info) :
    (∀ p ∈ info, IsSubstr p.1 (buildSystemMessage info) ∧
      ∀ c ∈ p.2.columns, IsSubstr c.name (buildSystemMessage info)) ∧
    IsSubstr "Use the EXACT table names and column names as provided above"
      (buildSystemMessage info) ∧
    IsSubstr "Do not include any `limit` parameter when calling tools unless explicitly requested by the user"
      (buildSystemMessage info) ∧
    IsSubstr "Always return numeric values (not strings) for tool parameters"
      (buildSystemMessage info) ∧
    IsSubstr "First use list_tables() to confirm available tables if unsure"
      (buildSystemMessage info) := by
  have hrules : ∀ r : String, IsSubstr r sysRules →
      IsSubstr r (buildSystemMessage info) := by
    intro r hr
    exact isSubstr_app_left _ hr
  refine ⟨?_, ?_, ?_, ?_, ?_⟩
  · intro p hp
    have hline : IsSubstr (detailLine p)
        (info.foldl (fun acc q => acc ++ detailLine q)
          (sysHead ++ joinComma (info.map Prod.fst) ++ sysMid)) :=
      isSubstr_foldl_mem p info _ hp
    have hmsg : IsSubstr (detailLine p) (buildSystemMessage info) :=
      isSubstr_app_right sysRules hline
    exact ⟨isSubstr_trans (isSubstr_detailLine_name p) hmsg,
      fun c hc => isSubstr_trans (isSubstr_detailLine_col p c hc) hmsg⟩
  · exact hrules _ ⟨"\n    \n    IMPORTANT RULES:\n    - ",
      "\n    - " ++
      "Do not include any `limit` parameter when calling tools unless explicitly requested by the user" ++
      "\n    - " ++
      "Always return numeric values (not strings) for tool parameters" ++
      "\n    - " ++
      "First use list_tables() to confirm available tables if unsure" ++
      "\n    - Provide clear, well-formatted responses with explanations when appropriate\n    ",
      by rw [sysRules_split]; try simp [String.append_assoc]⟩
  · exact hrules _ ⟨"\n    \n    IMPORTANT RULES:\n    - " ++
      "Use the EXACT table names and column names as provided above" ++
      "\n    - ",
      "\n    - " ++
      "Always return numeric values (not strings) for tool parameters" ++
      "\n    - " ++
      "First use list_tables() to confirm available tables if unsure" ++
      "\n    - Provide clear, well-formatted responses with explanations when appropriate\n    ",
      by rw [sysRules_split]; try simp [String.append_assoc]⟩
  · exact hrules _ ⟨"\n    \n    IMPORTANT RULES:\n    - " ++
      "Use the EXACT table names and column names as provided above" ++
      "\n    - " ++
      "Do not include any `limit` parameter when calling tools unless explicitly requested by the user" ++
      "\n    - ",
      "\n    - " ++
      "First use list_tables() to confirm available tables if unsure" ++
      "\n    - Provide clear, well-formatted responses with explanations when appropriate\n    ",
      by rw [sysRules_split]; try simp [String.append_assoc]⟩
  · exact hrules _ ⟨"\n    \n    IMPORTANT RULES:\n    - " ++
      "Use the EXACT table names and column names as provided above" ++
      "\n    - " ++
      "Do not include any `limit` parameter when calling tools unless explicitly requested by the user" ++
      "\n    - " ++
      "Always return numeric values (not strings) for tool parameters" ++
      "\n    - ",
      "\n    - Provide clear, well-formatted responses with explanations when appropriate\n    ",
      by rw [sysRules_split]; try simp [String.append_assoc]⟩

theorem system_message_complete_witness :
    IsSubstr "customers" (buildSystemMessage (exampleTables.map descOf)) ∧
    IsSubstr "country" (buildSystemMessage (exampleTables.map descOf)) ∧
    IsSubstr "Use the EXACT table names and column names as provided above"
      (buildSystemMessage (exampleTables.map descOf)) := by
  have h := system_message_complete exampleDB (exampleTables.map descOf) rfl
  exact ⟨(h.1 (descOf customersTable) (by decide)).1,
    (h.1 (descOf customersTable) (by decide)).2
      ⟨2, "country", "TEXT", 0, none, 0⟩ (by decide),
    h.2.1⟩

/-- Characters the regex class of single codes after ESC accepts: the
ranges 0x40 to 0x5A and 0x5C to 0x5F. -/
def isAnsiSingle (c : Char) : Bool :=
  (0x40 ≤ c.toNat && c.toNat ≤ 0x5A) || (0x5C ≤ c.toNat && c.toNat ≤ 0x5F)

/-- CSI parameter bytes, 0x30 to 0x3F. -/
def isCsiParam (c : Char) : Bool := 0x30 ≤ c.toNat && c.toNat ≤ 0x3F

/-- CSI intermediate bytes, 0x20 to 0x2F. -/
def isCsiInter (c : Char) : Bool := 0x20 ≤ c.toNat && c.toNat ≤ 0x2F

/-- CSI final bytes, 0x40 to 0x7E. -/
def isCsiFinal (c : Char) : Bool := 0x40 ≤ c.toNat && c.toNat ≤ 0x7E

/-- When a match of the ANSI escape regex begins at the head of the list,
the suffix after the matched text; none when no match starts here.  The
greedy stars need no backtracking because the three CSI byte classes are
pairwise disjoint. -/
def ansiMatch : List Char → Option (List Char)
  | c :: d :: rest =>
    if c = '\x1b' then
      if isAnsiSingle d then some rest
      else if d = '[' then
        match (rest.dropWhile isCsiParam).dropWhile isCsiInter with
        | e :: es => if isCsiFinal e then some es else none
        | [] => none
      else none
    else none
  | _ => none

theorem length_dropWhile_le (p : Char → Bool) (l : List Char) :
    (l.dropWhile p).length ≤ l.length := by
  induction l with
  | nil => simp
  | cons c cs ih =>
    by_cases h : p c
    · simp only [List.dropWhile_cons, h, if_true, List.length_cons]
      omega
    · simp [List.dropWhile_cons, h]

theorem ansiMatch_length_lt {l l2 : List Char} (h : ansiMatch l = some l2) :
    l2.length < l.length := by
  match l with
  | [] => simp [ansiMatch] at h
  | [c] => simp [ansiMatch] at h
  | c :: d :: rest =>
    by_cases hc : c = '\x1b'
    · by_cases hd : isAnsiSingle d = true
      · simp only [ansiMatch, hc, hd, if_true] at h
        cases h
        simp only [List.length_cons]
        omega
      · by_cases hbr : d = '['
        · have hsb : isAnsiSingle '[' = false := by decide
          rcases hlist : (rest.dropWhile isCsiParam).dropWhile isCsiInter
            with _ | ⟨e, es⟩
          · simp [ansiMatch, hc, hbr, hsb, hlist] at h
          · by_cases hf : isCsiFinal e = true
            · simp only [ansiMatch, hc, hbr, hsb, hlist, hf, if_true,
                Bool.false_eq_true, if_false, Option.some.injEq] at h
              subst h
              have h1 : (e :: es).length ≤ rest.length := by
                rw [← hlist]
                exact le_trans (length_dropWhile_le _ _)
                  (length_dropWhile_le _ _)
              simp only [List.length_cons] at h1 ⊢
              omega
            · simp [ansiMatch, hc, hbr, hsb, hlist, hf] at h
        · simp [ansiMatch, hc, hd, hbr] at h
    · simp [ansiMatch, hc] at h

/-- The regex substitution removing ANSI escape sequences: scan left to
right, drop each match, keep unmatched characters. -/
def stripAnsiChars (l : List Char) : List Char :=
  match hm : ansiMatch l with
  | some l2 => stripAnsiChars l2
  | none =>
    match l with
    | [] => []
    | c :: cs => c :: stripAnsiChars cs
termination_by l.length
decreasing_by
  · exact ansiMatch_length_lt hm
  · simp

/-- Embedding of ansi_escape.sub on a string. -/
def stripAnsi (s : String) : String := ⟨stripAnsiChars s.data⟩

/-- Embedding of str.strip: whitespace removed from both ends. -/
def pyStrip (s : String) : String := s.trim

/-- The reply object of the external agent: either it carries a content
attribute, or it is rendered with str(). -/
inductive AgentResp where
  | withContent (content : String)
  | other (rendered : String)
deriving DecidableEq, Repr

/-- Extraction of the reply text: response.content when the attribute is
present, else str(response). -/
def extractContent : AgentResp → String
  | .withContent c => c
  | .other s => s

/-- The external agent as an oracle: from the composed system message, the
bound database and the user query it either returns a reply object or
raises with an exception message.  Everything behind agent.run (network,
model, tool calls, the bounded retry policy) lives inside this function. -/
def Oracle : Type := String → DBFile → String → Except String AgentResp

/-- Embedding of get_agent_response: re-derive the schema (this happens
before the try block), compose the system message, configure the agent,
then inside the try block run the agent, extract the reply text and clean
it; any exception from that call becomes the textual error message.  An
exception from the schema re-derivation itself propagates to the caller. -/
def get_agent_response (oracle : Oracle) (query : String) (db : DBFile) :
    Except String String :=
  match explore_database db with
  | .error e => .error e
  | .ok table_info =>
    let system_message := buildSystemMessage table_info
    match oracle system_message db query with
    | .ok resp => .ok (pyStrip (stripAnsi (extractContent resp)))
    | .error e => .ok ("Error processing query: " ++ e)

/-- C5: a failure of the external agent call is caught at the bridge
boundary: when the schema re-derivation succeeded and the agent call
raises with message e, get_agent_response returns the text
"Error processing query: " followed by e, not an exception. -/
theorem agent_failure_returns_error_text (oracle : Oracle) (query : String)
    (db : DBFile) (info : List (String × TableDesc)) (e : String)
    (hexp : explore_database db = .ok info)
    (hfail : oracle (buildSystemMessage info) db query = .error e) :
    get_agent_response oracle query db =
      .ok ("Error processing query: " ++ e) := by
  simp [get_agent_response, hexp, hfail]

theorem agent_failure_returns_error_text_witness :
    get_agent_response (fun _ _ _ => .error "connection refused") "hi"
      exampleDB = .ok ("Error processing query: " ++ "connection refused") :=
  agent_failure_returns_error_text (fun _ _ _ => .error "connection refused")
    "hi" exampleDB (exampleTables.map descOf) "connection refused" rfl rfl

/-- C10: the schema re-derivation in get_agent_response runs before the
exception handler begins, so an exception raised by exploration propagates
to the caller instead of being converted to the textual error message. -/
theorem exploration_error_propagates (oracle : Oracle) (query : String)
    (db : DBFile) (e : String) (hexp : explore_database db = .error e) :
    get_agent_response oracle query db = .error e := by
  simp [get_agent_response, hexp]

theorem exploration_error_propagates_witness :
    get_agent_response (fun _ _ _ => .error "unused") "hi"
      (DBFile.malformed "file is not a database") =
      .error "file is not a database" :=
  exploration_error_propagates (fun _ _ _ => .error "unused") "hi"
    (DBFile.malformed "file is not a database") "file is not a database" rfl

/-- One transcript turn as stored in st.session_state.messages: a dict with
a role (user or assistant) and the content text. -/
structure Message where
  role : String
  content : String
deriving DecidableEq, Repr

/-- The session state of main: the uploaded database (db_path), its display
name (db_name) and the chat transcript (messages). -/
structure SessionState where
  db_path : DBFile
  db_name : String
  messages : List Message
deriving DecidableEq, Repr

/-- The Python truthiness test on groq_api_key: the key is missing when
os.getenv returned None or the empty string. -/
def keyMissing : Option String → Bool
  | none => true
  | some s => s.isEmpty

/-- The assistant text produced for one question: with the key missing the
fixed instruction message (the agent is never consulted); otherwise the
value of get_agent_response, and when that call raises, the message built
by the surrounding exception handler of main. -/
def chatResponse (key : Option String) (oracle : Oracle) (db : DBFile)
    (prompt : String) : String :=
  if keyMissing key then
    "Please configure your GROQ API key to use this feature."
  else
    match get_agent_response oracle prompt db with
    | .ok r => r
    | .error e => "❌ Error processing query: " ++ e

/-- Embedding of the chat-input block of main: append the user turn, then
compute the assistant text and append it as the assistant turn.  The
database fields are not touched. -/
def chatStep (key : Option String) (oracle : Oracle) (s : SessionState)
    (prompt : String) : SessionState :=
  let s1 : SessionState :=
    { s with messages := s.messages ++ [⟨"user", prompt⟩] }
  { s1 with messages := s1.messages ++
      [⟨"assistant", chatResponse key oracle s1.db_path prompt⟩] }

/-- Embedding of the clear-chat-history button: st.session_state.messages
is set to the empty list and nothing else changes. -/
def clearHistory (s : SessionState) : SessionState :=
  { s with messages := [] }

/-- A small concrete session used by the witnesses. -/
def exampleSession : SessionState := ⟨exampleDB, "example.db", []⟩

/-- C1: with the credential missing the chat step is the same for any two
oracles (so no call to the external agent can influence it) and the
assistant turn appended after the user turn is exactly the fixed
instruction message. -/
theorem missing_key_fixed_message (key : Option String)
    (hkey : keyMissing key = true) (o1 o2 : Oracle) (s : SessionState)
    (prompt : String) :
    chatStep key o1 s prompt = chatStep key o2 s prompt ∧
    (chatStep key o1 s prompt).messages = s.messages ++
      [⟨"user", prompt⟩,
       ⟨"assistant",
        "Please configure your GROQ API key to use this feature."⟩] := by
  constructor <;> simp [chatStep, chatResponse, hkey]

theorem missing_key_fixed_message_witness :
    chatStep none (fun _ _ _ => .error "netA") exampleSession "q" =
      chatStep none (fun _ _ _ => .ok (.other "netB")) exampleSession "q" ∧
    (chatStep none (fun _ _ _ => .error "netA") exampleSession "q").messages =
      exampleSession.messages ++
      [⟨"user", "q"⟩,
       ⟨"assistant",
        "Please configure your GROQ API key to use this feature."⟩] :=
  missing_key_fixed_message none rfl (fun _ _ _ => .error "netA")
    (fun _ _ _ => .ok (.other "netB")) exampleSession "q"

/-- C7: clearing the history empties the transcript and leaves every other
session field unchanged; in particular a later chat step still runs against
the same database file. -/
theorem clear_history_frame (s : SessionState) :
    (clearHistory s).messages = [] ∧
    (clearHistory s).db_path = s.db_path ∧
    (clearHistory s).db_name = s.db_name ∧
    (∀ key o prompt,
      (chatStep key o (clearHistory s) prompt).db_path = s.db_path) :=
  ⟨rfl, rfl, rfl, fun _ _ _ => rfl⟩

/-- C8: when the key is present and the external agent call fails, the chat
step appends the user turn and then the textual error as the final
assistant turn, and it keeps the database path, display name and all
earlier turns, so the session still accepts a further question. -/
theorem failed_call_keeps_session (key : Option String) (o : Oracle)
    (s : SessionState) (prompt e : String)
    (info : List (String × TableDesc))
    (hkey : keyMissing key = false)
    (hexp : explore_database s.db_path = .ok info)
    (hfail : o (buildSystemMessage info) s.db_path prompt = .error e) :
    (chatStep key o s prompt).messages =
      s.messages ++ [⟨"user", prompt⟩,
        ⟨"assistant", "Error processing query: " ++ e⟩] ∧
    (chatStep key o s prompt).messages.getLast? =
      some ⟨"assistant", "Error processing query: " ++ e⟩ ∧
    (chatStep key o s prompt).db_path = s.db_path ∧
    (chatStep key o s prompt).db_name = s.db_name := by
  have hresp : get_agent_response o prompt s.db_path =
      .ok ("Error processing query: " ++ e) := by
    simp [get_agent_response, hexp, hfail]
  have hmsgs : (chatStep key o s prompt).messages =
      s.messages ++ [⟨"user", prompt⟩,
        ⟨"assistant", "Error processing query: " ++ e⟩] := by
    simp [chatStep, chatResponse, hkey, hresp]
  refine ⟨hmsgs, ?_, rfl, rfl⟩
  rw [hmsgs,
    show s.messages ++ [(⟨"user", prompt⟩ : Message),
        ⟨"assistant", "Error processing query: " ++ e⟩] =
      (s.messages ++ [⟨"user", prompt⟩]) ++
        [⟨"assistant", "Error processing query: " ++ e⟩] by simp]
  exact List.getLast?_concat _

theorem failed_call_keeps_session_witness :
    (chatStep (some "gsk") (fun _ _ _ => .error "timeout")
        exampleSession "q").messages =
      exampleSession.messages ++ [⟨"user", "q"⟩,
        ⟨"assistant", "Error processing query: " ++ "timeout"⟩] ∧
    (chatStep (some "gsk") (fun _ _ _ => .error "timeout")
        exampleSession "q").messages.getLast? =
      some ⟨"assistant", "Error processing query: " ++ "timeout"⟩ ∧
    (chatStep (some "gsk") (fun _ _ _ => .error "timeout")
        exampleSession "q").db_path = exampleSession.db_path ∧
    (chatStep (some "gsk") (fun _ _ _ => .error "timeout")
        exampleSession "q").db_name = exampleSession.db_name :=
  failed_call_keeps_session (some "gsk") (fun _ _ _ => .error "timeout")
    exampleSession "q" "timeout" (exampleTables.map descOf) rfl rfl rfl

end TalkDB
